import Mathlib

/-!
Verification development for the arc-discovery-analysis repository.

Strings are modelled as lists of characters (`Str`), so that every
operation of the sources (Python `str.split`, `str.strip`, `str.join`,
`str.lower`, `str.upper`, `str.startswith`) is an executable Lean
function that the kernel can evaluate on concrete inputs.

The embedded code comes from:
  * `arc_dp_crawler.py` — `Investigator`, `GrantRecord`,
    `chief_investigators`, `is_discovery_project`, `is_funded`, the
    listing-collection predicate of `main`, and the CSV-row flattening;
  * `app.py` — `load_data` (split / explode / drop-blanks), the FoR
    label map, `label_for`, `get_ranked_cis` and the code-selection
    part of `get_ci_detail`;
  * `simple_build.py` — `get_for_labels` and `get_label`;
  * `extract_cis.py` — the name/ORCID pairing of
    `extract_cis_and_affiliations`.
-/

/-- Strings as lists of characters. -/
abbrev Str := List Char

/-- Python `s.lower()`. -/
def lowerS (s : Str) : Str := s.map Char.toLower

/-- Python `s.upper()`. -/
def upperS (s : Str) : Str := s.map Char.toUpper

/-- Python `s.strip()`: whitespace removed from both ends. -/
def stripS (s : Str) : Str :=
  ((s.dropWhile Char.isWhitespace).reverse.dropWhile Char.isWhitespace).reverse

/-- First occurrence of `sep` in `s`: returns the part before the
occurrence and the part after it, or `none` when `sep` does not occur
(or is empty). -/
def splitFirst (sep : Str) : Str → Option (Str × Str)
  | [] => none
  | c :: rest =>
    if sep ≠ [] ∧ sep.isPrefixOf (c :: rest) then
      some ([], (c :: rest).drop sep.length)
    else
      (splitFirst sep rest).map (fun p => (c :: p.1, p.2))

theorem splitFirst_post_length {sep : Str} :
    ∀ {s pre post : Str}, splitFirst sep s = some (pre, post) → post.length < s.length := by
  intro s
  induction s with
  | nil => intro pre post h; simp [splitFirst] at h
  | cons c rest ih =>
    intro pre post h
    rw [splitFirst] at h
    split at h
    · rename_i hcond
      obtain ⟨h1, h2⟩ := Prod.mk.injEq .. ▸ (Option.some.injEq .. ▸ h)
      subst h2
      have hsep : 0 < sep.length := by
        cases sep with
        | nil => exact absurd rfl hcond.1
        | cons a b => simp
      rw [List.length_drop]
      exact Nat.sub_lt (by simp) hsep
    · rw [Option.map_eq_some'] at h
      obtain ⟨⟨p1, p2⟩, hp, heq⟩ := h
      obtain ⟨e1, e2⟩ := Prod.mk.injEq .. ▸ heq
      subst e2
      exact Nat.lt_succ_of_lt (ih hp)

/-- Fuelled worker for Python `s.split(sep)`. -/
def pysplitF (sep : Str) : Nat → Str → List Str
  | 0, s => [s]
  | Nat.succ fuel, s =>
    match splitFirst sep s with
    | none => [s]
    | some (pre, post) => pre :: pysplitF sep fuel post

/-- Python `s.split(sep)` for a non-empty separator: repeatedly cut at
the leftmost occurrence of `sep`.  `"".split(sep)` gives `[""]`. -/
def pysplit (sep s : Str) : List Str := pysplitF sep (Nat.succ s.length) s

theorem pysplitF_fuel {sep : Str} :
    ∀ {f : Nat} {g : Nat} {s : Str}, s.length < f → s.length < g →
      pysplitF sep f s = pysplitF sep g s := by
  intro f
  induction f with
  | zero => intro g s hf; omega
  | succ f ih =>
    intro g s hf hg
    cases g with
    | zero => omega
    | succ g =>
      show pysplitF sep (Nat.succ f) s = pysplitF sep (Nat.succ g) s
      rw [pysplitF, pysplitF]
      cases hsp : splitFirst sep s with
      | none => rfl
      | some p =>
        obtain ⟨pre, post⟩ := p
        have hlen := splitFirst_post_length hsp
        show pre :: pysplitF sep f post = pre :: pysplitF sep g post
        have hrec := ih (g := g) (s := post) (by omega) (by omega)
        rw [hrec]

/-- Unfolding equation for `pysplit`. -/
theorem pysplit_eq (sep s : Str) :
    pysplit sep s =
      match splitFirst sep s with
      | none => [s]
      | some (pre, post) => pre :: pysplit sep post := by
  show pysplitF sep (Nat.succ s.length) s = _
  rw [pysplitF]
  cases hsp : splitFirst sep s with
  | none => rfl
  | some p =>
    obtain ⟨pre, post⟩ := p
    have hlen := splitFirst_post_length hsp
    show pre :: pysplitF sep s.length post = pre :: pysplit sep post
    have hrec := @pysplitF_fuel sep s.length (Nat.succ post.length) post
      (by omega) (by omega)
    rw [show pysplit sep post = pysplitF sep (Nat.succ post.length) post from rfl, hrec]

/-- Python `sep.join(parts)`. -/
def pyjoin (sep : Str) : List Str → Str
  | [] => []
  | [x] => x
  | x :: y :: rest => x ++ sep ++ pyjoin sep (y :: rest)

/-- Does `sub` occur as a contiguous substring of `s`? -/
def containsSub (sub s : Str) : Bool := (splitFirst sub s).isSome

/-! ## Crawler data model — `arc_dp_crawler.py` -/

/-- Python truthiness for an optional string: `None` and `""` are falsy. -/
def truthyS (o : Option Str) : Option Str :=
  match o with
  | some s => if s.isEmpty then none else some s
  | none => none

/-- Python truthiness for an optional integer: `None` and `0` are falsy. -/
def truthyN (o : Option Nat) : Bool :=
  match o with
  | some n => n != 0
  | none => false

/-- `Investigator` dataclass (`arc_dp_crawler.py`, lines 14-27). -/
structure Investigator where
  title : Option Str
  first_name : Option Str
  family_name : Option Str
  role_name : Option Str
  role_code : Option Str
  is_fellowship : Option Bool
  orcid : Option Str
deriving DecidableEq

/-- `Investigator.full_name`: join of the truthy name parts with a space. -/
def Investigator.full_name (inv : Investigator) : Str :=
  pyjoin (" ".data) ([inv.title, inv.first_name, inv.family_name].filterMap truthyS)

/-- One entry of the `field-of-research` list of a detail response. -/
structure ForItem where
  code : Option Str
  name : Option Str
  isPrimary : Bool
deriving DecidableEq

/-- The `field_of_research` attribute: a list of entries, a bare string
(older schema), or absent. -/
inductive ForField where
  | items (l : List ForItem)
  | txt (s : Str)
  | absent
deriving DecidableEq

/-- `GrantRecord` dataclass (`arc_dp_crawler.py`, lines 29-48). -/
structure GrantRecord where
  code : Str
  scheme_name : Option Str
  funding_commencement_year : Option Nat
  grant_status : Option Str
  funding_at_announcement : Option ℚ
  funding_current : Option ℚ
  administering_organisation : Option Str
  administering_organisation_announcement : Option Str
  summary : Option Str
  field_of_research : ForField
  socio_economic_objective : Option Str
  national_interest_test_statement : Option Str
  investigators_current : List Investigator
  investigators_announcement : List Investigator
deriving DecidableEq

/-- `GrantRecord.chief_investigators`:
`source = investigators_current or investigators_announcement or []`,
then keep investigators whose upper-cased role code is `"CI"` or whose
lower-cased role name is `"chief investigator"`. -/
def GrantRecord.chief_investigators (rec : GrantRecord) : List Investigator :=
  (if rec.investigators_current.isEmpty then rec.investigators_announcement
   else rec.investigators_current).filter
    (fun inv =>
      (upperS (inv.role_code.getD []) == "CI".data) ||
      (lowerS (inv.role_name.getD []) == "chief investigator".data))

/-- `is_discovery_project` (`arc_dp_crawler.py`, lines 118-119):
`(attributes.get("scheme-name") or "").strip().lower() == "discovery projects"`. -/
def is_discovery_project_b (scheme_name : Option Str) : Bool :=
  lowerS (stripS (scheme_name.getD [])) == "discovery projects".data

/-- The funding attributes of a listing/detail item relevant to
`is_funded`; a non-numeric or missing value is `none`. -/
structure FundingAttrs where
  funding_at_announcement : Option ℚ
  funding_current : Option ℚ
  announced_funding_amount : Option ℚ
  current_funding_amount : Option ℚ
deriving DecidableEq

/-- `is_funded` (`arc_dp_crawler.py`, lines 122-139): some funding
amount is present and strictly positive. -/
def is_funded_b (a : FundingAttrs) : Bool :=
  [a.funding_at_announcement, a.funding_current,
   a.announced_funding_amount, a.current_funding_amount].any
    (fun o =>
      match o with
      | some v => decide (0 < v)
      | none => false)

/-- The attributes of one listing item examined by the discovery loop. -/
structure ListItem where
  scheme_name : Option Str
  funding_commencement_year : Option Nat
  funding : FundingAttrs
deriving DecidableEq

/-- The collection predicate of the discovery loop
(`arc_dp_crawler.py`, lines 173-184): an item is kept as a candidate
iff none of the four `continue` guards fires.  `args.year_from and …`
follows Python truthiness: a `None` or `0` bound deactivates the
guard. -/
def collects (year_from year_to : Option Nat) (it : ListItem) : Bool :=
  is_discovery_project_b it.scheme_name &&
  !(truthyN year_from && decide (it.funding_commencement_year.getD 0 < year_from.getD 0)) &&
  !(truthyN year_to && decide (year_to.getD 0 < it.funding_commencement_year.getD 0)) &&
  is_funded_b it.funding

/-! ## CSV export — `arc_dp_crawler.py`, `main`, lines 239-280 -/

/-- The `"; "` separator used for the multi-valued CSV columns. -/
def sepJ : Str := "; ".data

/-- `all_codes`: the codes of the `field-of-research` entries, in
order, keeping truthy values only. -/
def all_codes_list (ff : ForField) : List Str :=
  match ff with
  | .items l => l.filterMap (fun it => truthyS it.code)
  | .txt _ => []
  | .absent => []

/-- `all_names`: the names of the `field-of-research` entries; the
older string schema yields a singleton. -/
def all_names_list (ff : ForField) : List Str :=
  match ff with
  | .items l => l.filterMap (fun it => truthyS it.name)
  | .txt s => [s]
  | .absent => []

/-- `primary_codes`: codes of the entries whose `isPrimary` is truthy. -/
def primary_codes_list (ff : ForField) : List Str :=
  match ff with
  | .items l => (l.filter (fun it => it.isPrimary)).filterMap (fun it => truthyS it.code)
  | .txt _ => []
  | .absent => []

/-- `primary_names`: names of the primary entries; the older string
schema yields a singleton. -/
def primary_names_list (ff : ForField) : List Str :=
  match ff with
  | .items l => (l.filter (fun it => it.isPrimary)).filterMap (fun it => truthyS it.name)
  | .txt s => [s]
  | .absent => []

/-- The ordered chief-investigator full names joined into the
`chief_investigators` column. -/
def ci_names_list (rec : GrantRecord) : List Str :=
  rec.chief_investigators.map Investigator.full_name

/-- The ordered ORCIDs joined into the `chief_investigators_orcids`
column: `[ci.orcid.strip() for ci in cis if ci.orcid]` — only chief
investigators with a truthy ORCID contribute. -/
def ci_orcids_list (rec : GrantRecord) : List Str :=
  rec.chief_investigators.filterMap (fun ci => (truthyS ci.orcid).map stripS)

/-- The multi-valued columns of the exported CSV row of one record. -/
structure CsvRow where
  code : Str
  for_primary_codes : Str
  for_primary_names : Str
  for_all_codes : Str
  for_all_names : Str
  chief_investigators : Str
  chief_investigators_orcids : Str
deriving DecidableEq

/-- `writer.writerow({...})` of `main`: each multi-valued column is the
`"; "`-join of its ordered list. -/
def toCsvRow (rec : GrantRecord) : CsvRow :=
  { code := rec.code
    for_primary_codes := pyjoin sepJ (primary_codes_list rec.field_of_research)
    for_primary_names := pyjoin sepJ (primary_names_list rec.field_of_research)
    for_all_codes := pyjoin sepJ (all_codes_list rec.field_of_research)
    for_all_names := pyjoin sepJ (all_names_list rec.field_of_research)
    chief_investigators := pyjoin sepJ (ci_names_list rec)
    chief_investigators_orcids := pyjoin sepJ (ci_orcids_list rec) }

/-! ## CI extraction — `extract_cis.py`, lines 26-37 -/

/-- Split a semicolon-separated cell the way `extract_cis.py` does:
split on `";"`, strip each part, drop falsy parts. -/
def splitCell (s : Str) : List Str :=
  ((pysplit (";".data) s).map stripS).filter (fun x => !x.isEmpty)

/-- The per-record (name, ORCID) pairing of
`extract_cis_and_affiliations`: the i-th name is paired with
`orcid_list[i] if i < len(orcid_list) else None`. -/
def extract_pairs (chief_investigators orcids : Str) : List (Str × Option Str) :=
  let ci_list := splitCell chief_investigators
  let orcid_list := splitCell orcids
  ci_list.mapIdx (fun i name => (name, orcid_list[i]?))

/-! ## Flask app — `app.py` -/

/-- One row of the input CSV as read by `app.py`; a missing (NaN) cell
is `none`. -/
structure Row where
  code : Str
  chief_investigators : Option Str
  for_all_codes : Option Str
  for_all_names : Option Str
deriving DecidableEq

/-- The splitter of `load_data.split_list` applied to one cell value:
`[x.strip() for x in s.split(";") if x.strip()]`. -/
def splitStr (s : Str) : List Str :=
  ((pysplit (";".data) s).map stripS).filter (fun x => !x.isEmpty)

/-- `split_list` on a column cell: `fillna("")` first. -/
def splitList (o : Option Str) : List Str := splitStr (o.getD [])

/-- `pandas.explode` on one list cell: an empty list explodes to a
single NaN (`none`) row, otherwise one row per element. -/
def explodeOpt (l : List Str) : List (Option Str) :=
  match l with
  | [] => [none]
  | _ => l.map some

/-- A long-form row before the blank filters: `code` of the record plus
the exploded `ci_name` and `for_code` cells. -/
structure XRow where
  code : Str
  ci_name : Option Str
  for_code : Option Str
deriving DecidableEq

/-- A long-form row after the blank filters. -/
structure FRow where
  code : Str
  ci_name : Str
  for_code : Str
deriving DecidableEq

/-- The double explosion of `load_data`:
`df.assign(ci_name=…, for_code=…).explode("ci_name").explode("for_code")`. -/
def explodeAll (df : List Row) : List XRow :=
  df.flatMap (fun r =>
    (explodeOpt (splitList r.chief_investigators)).flatMap (fun ci =>
      (explodeOpt (splitList r.for_all_codes)).map (fun fc => ⟨r.code, ci, fc⟩)))

/-- A cell is kept when it is non-NaN with positive length. -/
def notBlank (o : Option Str) : Bool :=
  match o with
  | some s => !s.isEmpty
  | none => false

/-- `exploded` of `load_data` (lines 25-36): explode, then drop blank
`ci_name` rows, then drop blank `for_code` rows.  The surviving rows
are repackaged with their (present) string cells. -/
def explodedRows (df : List Row) : List FRow :=
  (((explodeAll df).filter (fun r => notBlank r.ci_name)).filter
      (fun r => notBlank r.for_code)).filterMap
    (fun r =>
      match r.ci_name, r.for_code with
      | some c, some f => some ⟨r.code, c, f⟩
      | _, _ => none)

/-- The rows of the overall (unfiltered) branch of `get_ranked_cis`
(lines 117-126): the original table with only `ci_name` exploded and
NaN `ci_name` rows dropped, projected to the `(ci_name, code)` cells
the group-by uses. -/
def overallPairs (df : List Row) : List (Str × Str) :=
  df.flatMap (fun r =>
    (explodeOpt (splitList r.chief_investigators)).filterMap
      (fun oc => oc.map (fun c => (c, r.code))))

/-- `groupby("ci_name")["code"].nunique()` over `(ci_name, code)`
cells: one entry per distinct `ci_name`, whose value is the number of
distinct codes among its rows.  (pandas orders groups by key; no claim
depends on the pre-sort group order, which the final count sort
reorders anyway.) -/
def groupbyNunique (rows : List (Str × Str)) : List (Str × Nat) :=
  ((rows.map Prod.fst).dedup).map (fun k =>
    (k, ((rows.filter (fun r => r.1 == k)).map Prod.snd).dedup.length))

/-- The descending-count order used by
`sort_values("num_projects", ascending=False)`. -/
def countGE (a b : Str × Nat) : Prop := b.2 ≤ a.2

instance : DecidableRel countGE := fun a b => Nat.decLe b.2 a.2

instance : IsTotal (Str × Nat) countGE := ⟨fun a b => Nat.le_total b.2 a.2⟩

instance : IsTrans (Str × Nat) countGE := ⟨fun _ _ _ h1 h2 => Nat.le_trans h2 h1⟩

/-- `sort_values("num_projects", ascending=False)`: a sort by
descending count (ties in unspecified order, as with pandas quicksort). -/
def sortDesc (l : List (Str × Nat)) : List (Str × Nat) := List.insertionSort countGE l

/-- The filter pipeline shared by `get_ranked_cis` (lines 101-112) and
`get_ci_detail` (lines 160-171): a non-empty `selected_codes` keeps
rows whose `for_code` is a member; a non-empty `selected_2digit_codes`
further keeps rows whose `for_code` starts with one of the prefixes. -/
def filteredRows (df : List Row) (selected_codes selected_2digit_codes : List Str) : List FRow :=
  let filt0 := explodedRows df
  let filt1 :=
    if !selected_codes.isEmpty then
      filt0.filter (fun r => selected_codes.contains r.for_code)
    else filt0
  if !selected_2digit_codes.isEmpty then
    filt1.filter (fun r => selected_2digit_codes.any (fun p => p.isPrefixOf r.for_code))
  else filt1

/-- The JSON payload of `/api/ranked_cis`. -/
structure RankResult where
  ranked_cis : List (Str × Nat)
  is_overall : Bool
deriving DecidableEq

instance {ε α : Type} [DecidableEq ε] [DecidableEq α] : DecidableEq (Except ε α) := fun x y =>
  match x, y with
  | .ok a, .ok b => if h : a = b then .isTrue (by rw [h]) else .isFalse (by simp [h])
  | .error a, .error b => if h : a = b then .isTrue (by rw [h]) else .isFalse (by simp [h])
  | .ok _, .error _ => .isFalse (by simp)
  | .error _, .ok _ => .isFalse (by simp)

/-- `get_ranked_cis` (lines 92-143), with the fixed `TOP_K`
generalised to a parameter and the not-loaded state as `none`.
`drop_duplicates(subset=["ci_name", "code"])` is modelled by
`List.dedup` on the projected `(ci_name, code)` pairs — it keeps one
row per pair, as pandas does; which duplicate survives only affects
pre-sort row order, which the group-by and count sort do not see. -/
def get_ranked_cis (data : Option (List Row))
    (selected_codes selected_2digit_codes : List Str) (top_k : Nat) :
    Except Str RankResult :=
  match data with
  | none => .error ("Data not loaded".data)
  | some df =>
    if selected_codes.isEmpty && selected_2digit_codes.isEmpty then
      .ok ⟨(sortDesc (groupbyNunique (overallPairs df))).take top_k, true⟩
    else
      .ok ⟨(sortDesc (groupbyNunique
              (((filteredRows df selected_codes selected_2digit_codes).map
                  (fun r => (r.ci_name, r.code))).dedup))).take top_k,
           false⟩

/-- Keep-first deduplication with an accumulator of already-seen
values; models `pandas.unique` (first-occurrence order). -/
def dedupFirstAux (seen : List Str) : List Str → List Str
  | [] => []
  | x :: l =>
    if seen.contains x then dedupFirstAux seen l
    else x :: dedupFirstAux (x :: seen) l

/-- `Series.unique().tolist()`. -/
def pyunique (l : List Str) : List Str := dedupFirstAux [] l

/-- The project-code selection of `get_ci_detail` (lines 145-175).
The unfiltered branch matches `ci_name` by containment against the raw
cell (`str.contains`, modelled as plain substring containment); the
filtered branch reuses the shared filter pipeline and exact equality. -/
def get_ci_detail_codes (data : Option (List Row)) (ci_name : Str)
    (selected_codes selected_2digit_codes : List Str) :
    Except Str (List Str) :=
  match data with
  | none => .error ("Data not loaded".data)
  | some df =>
    if selected_codes.isEmpty && selected_2digit_codes.isEmpty then
      .ok (pyunique ((df.filter
        (fun r => containsSub ci_name (r.chief_investigators.getD []))).map (fun r => r.code)))
    else
      .ok (pyunique (((filteredRows df selected_codes selected_2digit_codes).filter
        (fun r => r.ci_name == ci_name)).map (fun r => r.code)))

/-! ## FoR code labels — `app.py` lines 38-46 / 68-74, `simple_build.py` -/

/-- `dict.setdefault(c, n)`: insert only when the key is absent. -/
def setdefault (m : List (Str × Str)) (k v : Str) : List (Str × Str) :=
  match m.lookup k with
  | some _ => m
  | none => m ++ [(k, v)]

/-- `for_code_to_name` of `load_data` (lines 38-46): zip the split
codes with the split names row by row, keeping the first name seen for
each code. -/
def buildForMap (df : List Row) : List (Str × Str) :=
  df.foldl
    (fun m r =>
      match r.for_all_codes, r.for_all_names with
      | some cs, some ns => ((splitStr cs).zip (splitStr ns)).foldl
          (fun m p => setdefault m p.1 p.2) m
      | _, _ => m)
    []

/-- `label_for` of `app.py` (lines 68-70): `"{c} — {n}"` when the map
has a truthy name for `c`, else the bare code. -/
def label_for (for_code_to_name : List (Str × Str)) (c : Str) : Str :=
  match for_code_to_name.lookup c with
  | some n => if n.isEmpty then c else c ++ " — ".data ++ n
  | none => c

/-- The hard-coded FoR label table of `simple_build.get_for_labels`. -/
def for_labels : List (Str × Str) :=
  [("0101".data, "Pure Mathematics".data),
   ("0102".data, "Applied Mathematics".data),
   ("0103".data, "Numerical and Computational Mathematics".data),
   ("0104".data, "Statistics".data),
   ("0105".data, "Mathematical Physics".data),
   ("0201".data, "Astronomical and Space Sciences".data),
   ("0202".data, "Atomic, Molecular, Nuclear, Particle and Plasma Physics".data),
   ("0203".data, "Classical Physics".data),
   ("0204".data, "Condensed Matter Physics".data),
   ("0205".data, "Optical Physics".data),
   ("0206".data, "Quantum Physics".data),
   ("0301".data, "Analytical Chemistry".data),
   ("0302".data, "Inorganic Chemistry".data),
   ("0303".data, "Macromolecular and Materials Chemistry".data),
   ("0304".data, "Medicinal and Biomolecular Chemistry".data),
   ("0305".data, "Organic Chemistry".data),
   ("0306".data, "Physical Chemistry (Incl. Structural)".data),
   ("0307".data, "Theoretical and Computational Chemistry".data),
   ("0401".data, "Atmospheric Sciences".data),
   ("0402".data, "Geochemistry".data),
   ("0403".data, "Geology".data),
   ("0404".data, "Geophysics".data),
   ("0405".data, "Oceanography".data),
   ("0406".data, "Physical Geography and Environmental Geoscience".data),
   ("0501".data, "Ecological Applications".data),
   ("0502".data, "Environmental Science and Management".data),
   ("0503".data, "Soil Sciences".data),
   ("0601".data, "Biochemistry and Cell Biology".data),
   ("0602".data, "Ecology".data),
   ("0603".data, "Evolutionary Biology".data),
   ("0604".data, "Genetics".data),
   ("0605".data, "Microbiology".data),
   ("0606".data, "Physiology".data),
   ("0607".data, "Plant Biology".data),
   ("0608".data, "Zoology".data),
   ("0801".data, "Artificial Intelligence and Image Processing".data),
   ("0802".data, "Computation Theory and Mathematics".data),
   ("0803".data, "Computer Software".data),
   ("0804".data, "Data Format".data),
   ("0805".data, "Distributed Computing".data),
   ("0806".data, "Information Systems".data),
   ("0807".data, "Library and Information Studies".data),
   ("0901".data, "Aerospace Engineering".data),
   ("0902".data, "Automotive Engineering".data),
   ("0903".data, "Biomedical Engineering".data),
   ("0904".data, "Chemical Engineering".data),
   ("0905".data, "Civil Engineering".data),
   ("0906".data, "Electrical and Electronic Engineering".data),
   ("0907".data, "Environmental Engineering".data),
   ("0908".data, "Food Sciences".data),
   ("0909".data, "Geomatic Engineering".data),
   ("0910".data, "Manufacturing Engineering".data),
   ("0911".data, "Maritime Engineering".data),
   ("0912".data, "Materials Engineering".data),
   ("0913".data, "Mechanical Engineering".data),
   ("0914".data, "Resources Engineering and Extractive Metallurgy".data),
   ("0915".data, "Interdisciplinary Engineering".data),
   ("1001".data, "Agricultural Biotechnology".data),
   ("1002".data, "Environmental Biotechnology".data),
   ("1003".data, "Industrial Biotechnology".data),
   ("1004".data, "Medical Biotechnology".data),
   ("1005".data, "Communications Technologies".data),
   ("1006".data, "Computer Hardware".data),
   ("1007".data, "Nanotechnology".data),
   ("1101".data, "Medical Biochemistry and Metabolomics".data),
   ("1102".data, "Cardiorespiratory Medicine and Haematology".data),
   ("1103".data, "Clinical Sciences".data),
   ("1104".data, "Complementary and Alternative Medicine".data),
   ("1106".data, "Human Movement and Sports Science".data),
   ("1107".data, "Immunology".data),
   ("1108".data, "Medical Microbiology".data),
   ("1109".data, "Neurosciences".data),
   ("1110".data, "Nursing".data),
   ("1111".data, "Nutrition and Dietetics".data),
   ("1112".data, "Oncology and Carcinogenesis".data),
   ("1113".data, "Ophthalmology and Optometry".data),
   ("1114".data, "Paediatrics and Reproductive Medicine".data),
   ("1115".data, "Pharmacology and Pharmaceutical Sciences".data),
   ("1116".data, "Medical Physiology".data),
   ("1117".data, "Public Health and Health Services".data),
   ("1201".data, "Architecture".data),
   ("1202".data, "Building".data),
   ("1203".data, "Design Practice and Management".data),
   ("1204".data, "Engineering Design".data),
   ("1205".data, "Urban and Regional Planning".data),
   ("1301".data, "Education Systems".data),
   ("1302".data, "Curriculum and Pedagogy".data),
   ("1303".data, "Specialist Studies In Education".data),
   ("1401".data, "Economic Theory".data),
   ("1402".data, "Applied Economics".data),
   ("1403".data, "Econometrics".data),
   ("1501".data, "Accounting, Auditing and Accountability".data),
   ("1502".data, "Banking, Finance and Investment".data),
   ("1503".data, "Business and Management".data),
   ("1504".data, "Commercial Services".data),
   ("1505".data, "Marketing".data),
   ("1506".data, "Tourism".data),
   ("1507".data, "Transportation and Freight Services".data),
   ("1601".data, "Anthropology".data),
   ("1602".data, "Criminology".data),
   ("1603".data, "Demography".data),
   ("1604".data, "Human Geography".data),
   ("1605".data, "Policy and Administration".data),
   ("1606".data, "Political Science".data),
   ("1607".data, "Social Work".data),
   ("1608".data, "Sociology".data),
   ("1701".data, "Psychology".data),
   ("1702".data, "Cognitive Sciences".data),
   ("1801".data, "Law".data),
   ("1901".data, "Art Theory and Criticism".data),
   ("1902".data, "Film, Television and Digital Media".data),
   ("1903".data, "Journalism and Professional Writing".data),
   ("1904".data, "Performing Arts and Creative Writing".data),
   ("1905".data, "Visual Arts and Crafts".data),
   ("2001".data, "Communication and Media Studies".data),
   ("2002".data, "Cultural Studies".data),
   ("2003".data, "Language Studies".data),
   ("2004".data, "Linguistics".data),
   ("2005".data, "Literary Studies".data),
   ("2101".data, "Archaeology".data),
   ("2102".data, "Curatorial and Related Studies".data),
   ("2103".data, "Historical Studies".data),
   ("2201".data, "Applied Ethics".data),
   ("2202".data, "History and Philosophy of Specific Fields".data),
   ("2203".data, "Philosophy".data),
   ("2204".data, "Religion and Religious Studies".data)]

/-- `get_label` of `simple_build.load_and_process_data` (lines
179-183): `"{code} — {name}"` when the table knows the code, else
`"{code} — {code}"`. -/
def get_label (code : Str) : Str :=
  match for_labels.lookup code with
  | some name => code ++ " — ".data ++ name
  | none => code ++ " — ".data ++ code

/-- Lexicographic character order, as used by Python `sorted` on the
code strings. -/
def lexLe : Str → Str → Prop := fun a b => List.Lex (· < ·) a b ∨ a = b

instance : DecidableRel lexLe := fun a b =>
  inferInstanceAs (Decidable (List.Lex (· < ·) a b ∨ a = b))

/-- The specific FoR codes offered by `simple_build` together with
their labels (`load_and_process_data`, lines 152-160 and 186):
`sorted(all_codes)`, each paired with `get_label`. -/
def simple_build_specific (df : List Row) : List (Str × Str) :=
  (List.insertionSort lexLe (pyunique (df.flatMap
      (fun r =>
        match r.for_all_codes with
        | some s => splitStr s
        | none => [])))).map (fun c => (c, get_label c))

/-! ## Specification-side definitions (worded from the claims) -/

/-- Claim side: an investigator is a chief investigator when the role
code case-insensitively equals `"CI"` or the role name
case-insensitively equals `"chief investigator"` (both targets written
in their normal case). -/
def isChiefInvestigator (inv : Investigator) : Prop :=
  upperS (inv.role_code.getD []) = "CI".data ∨
  lowerS (inv.role_name.getD []) = "chief investigator".data

instance (inv : Investigator) : Decidable (isChiefInvestigator inv) :=
  inferInstanceAs (Decidable (_ ∨ _))

/-- Claim side: the chief-investigator list computed as the claim
words it — select `investigators_current` when non-empty, otherwise
`investigators_announcement`, then filter by chief-investigator
status. -/
def chief_investigators_spec (rec : GrantRecord) : List Investigator :=
  (if rec.investigators_current = [] then rec.investigators_announcement
   else rec.investigators_current).filter (fun inv => decide (isChiefInvestigator inv))

/-- Claim side: the number of distinct project codes among the rows of
`rows` that belong to investigator `i`. -/
def distinctCodesAmong (rows : List FRow) (i : Str) : Nat :=
  ((rows.filter (fun r => r.ci_name == i)).map (fun r => r.code)).toFinset.card

/-- Claim side: the number of distinct project codes, over the entire
unfiltered table, of the records whose chief-investigator list
contains `i`. -/
def overallDistinct (df : List Row) (i : Str) : Nat :=
  ((df.filter (fun r => (splitList r.chief_investigators).contains i)).map
      (fun r => r.code)).toFinset.card

/-- Claim side for C5, exactly as the claim words it: scheme name
case-insensitively equals the target (no whitespace stripping), the
commencement year (missing treated as 0) is between the configured
bounds, and some funding amount is positive. -/
def claimCollects (year_from year_to : Option Nat) (it : ListItem) : Bool :=
  (lowerS (it.scheme_name.getD []) == "discovery projects".data) &&
  (match year_from with
   | none => true
   | some y => decide (y ≤ it.funding_commencement_year.getD 0)) &&
  (match year_to with
   | none => true
   | some m => decide (it.funding_commencement_year.getD 0 ≤ m)) &&
  is_funded_b it.funding

/-! ## Helper lemmas -/

theorem mem_splitFirst_none_of_containsSub {sub s : Str}
    (h : containsSub sub s = false) : splitFirst sub s = none := by
  unfold containsSub at h
  cases hs : splitFirst sub s with
  | none => rfl
  | some p => rw [hs] at h; simp at h

theorem dedup_length_congr {l₁ l₂ : List Str} (h : ∀ x, x ∈ l₁ ↔ x ∈ l₂) :
    l₁.dedup.length = l₂.dedup.length := by
  have hfin : l₁.toFinset = l₂.toFinset := by
    ext x
    simp only [List.mem_toFinset]
    exact h x
  rw [← List.card_toFinset, ← List.card_toFinset, hfin]

theorem mem_filter_map_pairs {rows : List (Str × Str)} {i c : Str} :
    c ∈ (rows.filter (fun r => r.1 == i)).map Prod.snd ↔ (i, c) ∈ rows := by
  simp only [List.mem_map, List.mem_filter, beq_iff_eq]
  constructor
  · rintro ⟨⟨a, b⟩, ⟨hmem, hfst⟩, hsnd⟩
    simp only at hfst hsnd
    subst hfst; subst hsnd
    exact hmem
  · intro hmem
    exact ⟨(i, c), ⟨hmem, rfl⟩, rfl⟩

theorem groupbyNunique_mem {rows : List (Str × Str)} {i : Str} {c : Nat} :
    (i, c) ∈ groupbyNunique rows ↔
      i ∈ rows.map Prod.fst ∧
      c = ((rows.filter (fun r => r.1 == i)).map Prod.snd).dedup.length := by
  unfold groupbyNunique
  simp only [List.mem_map, List.mem_dedup]
  constructor
  · rintro ⟨k, hk, heq⟩
    obtain ⟨h1, h2⟩ := Prod.mk.injEq .. ▸ heq
    subst h1
    exact ⟨hk, h2.symm⟩
  · rintro ⟨hk, hc⟩
    exact ⟨i, hk, by rw [hc]⟩

theorem groupbyNunique_keys_nodup (rows : List (Str × Str)) :
    ((groupbyNunique rows).map Prod.fst).Nodup := by
  unfold groupbyNunique
  rw [List.map_map]
  have : (Prod.fst ∘ fun k =>
      ((k : Str), ((rows.filter (fun r => r.1 == k)).map Prod.snd).dedup.length)) = id := by
    funext k; rfl
  rw [this, List.map_id]
  exact List.nodup_dedup _

theorem dedup_pairs_count_eq (rows : List (Str × Str)) (i : Str) :
    ((rows.dedup.filter (fun r => r.1 == i)).map Prod.snd).dedup.length =
      ((rows.filter (fun r => r.1 == i)).map Prod.snd).dedup.length := by
  apply dedup_length_congr
  intro c
  rw [mem_filter_map_pairs, mem_filter_map_pairs, List.mem_dedup]

theorem sortDesc_sorted (l : List (Str × Nat)) : List.Sorted countGE (sortDesc l) :=
  List.sorted_insertionSort countGE l

theorem sortDesc_perm (l : List (Str × Nat)) : (sortDesc l).Perm l :=
  List.perm_insertionSort countGE l

theorem take_sorted_mem {l : List (Str × Nat)} {k : Nat} {p : Str × Nat}
    (h : p ∈ l.take k) : p ∈ l :=
  (List.take_sublist k l).mem h

theorem mem_dedupFirstAux {x : Str} : ∀ {seen l : List Str},
    x ∈ dedupFirstAux seen l ↔ x ∈ l ∧ x ∉ seen := by
  intro seen l
  induction l generalizing seen with
  | nil => simp [dedupFirstAux]
  | cons a t ih =>
    rw [dedupFirstAux]
    by_cases ha : a ∈ seen
    · rw [if_pos (List.elem_iff.mpr ha), ih, List.mem_cons]
      constructor
      · rintro ⟨h1, h2⟩
        exact ⟨Or.inr h1, h2⟩
      · rintro ⟨h1 | h1, h2⟩
        · subst h1; exact absurd ha h2
        · exact ⟨h1, h2⟩
    · rw [if_neg (fun hc => ha (List.elem_iff.mp hc))]
      simp only [List.mem_cons, ih]
      constructor
      · rintro (h | ⟨h1, h2⟩)
        · exact ⟨Or.inl h, fun hc => ha (h ▸ hc)⟩
        · exact ⟨Or.inr h1, fun hc => h2 (Or.inr hc)⟩
      · rintro ⟨h1 | h1, h2⟩
        · exact Or.inl h1
        · by_cases hx : x = a
          · exact Or.inl hx
          · exact Or.inr ⟨h1, fun hc => hc.elim hx h2⟩

theorem mem_pyunique {x : Str} {l : List Str} : x ∈ pyunique l ↔ x ∈ l := by
  unfold pyunique
  rw [mem_dedupFirstAux]
  simp

theorem sepJ_eq : sepJ = [';', ' '] := rfl

theorem sepJ_splitFirst_append (r : Str) :
    ∀ (x : Str), splitFirst sepJ x = none →
      splitFirst sepJ (x ++ sepJ ++ r) = some (x, r) := by
  intro x
  induction x with
  | nil =>
    intro _
    rw [List.nil_append, sepJ_eq]
    show splitFirst [';', ' '] (';' :: (' ' :: r)) = some ([], r)
    rw [splitFirst]
    rw [if_pos ⟨by simp, by simp [List.isPrefixOf]⟩]
    rfl
  | cons c x ih =>
    intro hx
    rw [splitFirst] at hx
    by_cases hcond : (sepJ ≠ [] ∧ sepJ.isPrefixOf (c :: x))
    · rw [if_pos hcond] at hx
      exact absurd hx (by simp)
    · rw [if_neg hcond] at hx
      rw [Option.map_eq_none'] at hx
      have hrest := ih hx
      have hlist : (c :: x) ++ sepJ ++ r = c :: (x ++ sepJ ++ r) := by simp
      rw [hlist, splitFirst]
      have hnot : ¬(sepJ ≠ [] ∧ sepJ.isPrefixOf (c :: (x ++ sepJ ++ r))) := by
        rintro ⟨-, hpre⟩
        rw [ List.isPrefixOf_iff_prefix, sepJ_eq, List.cons_prefix_cons] at hpre
        obtain ⟨hc, hpre⟩ := hpre
        cases x with
        | nil =>
          rw [List.nil_append,
            show ([';', ' '] : Str) ++ r = ';' :: (' ' :: r) from rfl,
            List.cons_prefix_cons] at hpre
          exact absurd hpre.1 (by decide)
        | cons d x =>
          rw [List.cons_append, List.cons_append, List.cons_prefix_cons] at hpre
          obtain ⟨hd, -⟩ := hpre
          apply hcond
          refine ⟨by rw [sepJ_eq]; simp, ?_⟩
          rw [← hc, ← hd]
          rw [sepJ_eq]
          simp [List.isPrefixOf]
      rw [if_neg hnot, hrest]
      rfl

theorem pysplit_pyjoin : ∀ (l : List Str), l ≠ [] →
    (∀ x ∈ l, splitFirst sepJ x = none) →
    pysplit sepJ (pyjoin sepJ l) = l := by
  intro l
  induction l with
  | nil => intro h; exact absurd rfl h
  | cons x tl ih =>
    intro _ hall
    cases tl with
    | nil =>
      rw [pyjoin, pysplit_eq, hall x (List.mem_cons_self x [])]
    | cons y tl =>
      rw [pyjoin, pysplit_eq,
        sepJ_splitFirst_append (pyjoin sepJ (y :: tl)) x (hall x (List.mem_cons_self x _))]
      show x :: pysplit sepJ (pyjoin sepJ (y :: tl)) = x :: y :: tl
      rw [ih (by simp) (fun z hz => hall z (List.mem_cons_of_mem x hz))]

/-! ## Claim C2 — chief-investigator selection -/

theorem ci_pred_eq (inv : Investigator) :
    ((upperS (inv.role_code.getD []) == "CI".data) ||
     (lowerS (inv.role_name.getD []) == "chief investigator".data)) =
      decide (isChiefInvestigator inv) := by
  rw [Bool.eq_iff_iff]
  simp [Bool.or_eq_true, beq_iff_eq, decide_eq_true_eq, isChiefInvestigator]

/-- C2: `chief_investigators()` selects `investigators_current` when
non-empty, otherwise `investigators_announcement`, never a merge, and
keeps exactly the investigators whose role code case-insensitively
equals `"CI"` or whose role name case-insensitively equals
`"chief investigator"`. -/
theorem claim_C2 (rec : GrantRecord) :
    rec.chief_investigators = chief_investigators_spec rec ∧
    (rec.investigators_current ≠ [] →
      rec.chief_investigators =
        rec.investigators_current.filter (fun inv => decide (isChiefInvestigator inv))) ∧
    (rec.investigators_current = [] →
      rec.chief_investigators =
        rec.investigators_announcement.filter (fun inv => decide (isChiefInvestigator inv))) ∧
    (∀ inv ∈ rec.chief_investigators,
      isChiefInvestigator inv ∧
      (rec.investigators_current ≠ [] → inv ∈ rec.investigators_current) ∧
      (rec.investigators_current = [] → inv ∈ rec.investigators_announcement)) := by
  have hmain : rec.chief_investigators = chief_investigators_spec rec := by
    unfold GrantRecord.chief_investigators chief_investigators_spec
    rw [List.filter_congr (fun inv _ => ci_pred_eq inv)]
    by_cases hcur : rec.investigators_current = []
    · simp [hcur]
    · rw [if_neg (by simpa [List.isEmpty_iff] using hcur), if_neg hcur]
  refine ⟨hmain, ?_, ?_, ?_⟩
  · intro hcur
    rw [hmain]
    unfold chief_investigators_spec
    rw [if_neg hcur]
  · intro hcur
    rw [hmain]
    unfold chief_investigators_spec
    rw [if_pos hcur]
  · intro inv hinv
    rw [hmain] at hinv
    unfold chief_investigators_spec at hinv
    by_cases hcur : rec.investigators_current = []
    · rw [if_pos hcur] at hinv
      rw [List.mem_filter, decide_eq_true_eq] at hinv
      exact ⟨hinv.2, fun h => absurd hcur h, fun _ => hinv.1⟩
    · rw [if_neg hcur] at hinv
      rw [List.mem_filter, decide_eq_true_eq] at hinv
      exact ⟨hinv.2, fun _ => hinv.1, fun h => absurd h hcur⟩

/-- A grant record with a non-empty current list: the current list has
a chief investigator and a postdoc, the announcement list has a
different chief investigator. -/
def recC2 : GrantRecord :=
  { code := "DP230100001".data, scheme_name := some ("Discovery Projects".data),
    funding_commencement_year := some 2023, grant_status := some ("Active".data),
    funding_at_announcement := some 400000, funding_current := some 400000,
    administering_organisation := some ("ANU".data),
    administering_organisation_announcement := none, summary := none,
    field_of_research := .absent, socio_economic_objective := none,
    national_interest_test_statement := none,
    investigators_current :=
      [⟨some ("Prof".data), some ("Ann".data), some ("Ada".data), some ("Chief Investigator".data),
        some ("ci".data), some false, some ("0000-0001".data)⟩,
       ⟨none, some ("Pat".data), some ("Post".data), some ("Postdoc".data),
        some ("PD".data), some false, none⟩],
    investigators_announcement :=
      [⟨none, some ("Old".data), some ("Olsen".data), some ("Chief Investigator".data),
        some ("CI".data), some false, none⟩] }

theorem claim_C2_witness :
    recC2.chief_investigators =
      recC2.investigators_current.filter (fun inv => decide (isChiefInvestigator inv)) :=
  (claim_C2 recC2).2.1 (by decide)

/-! ## Claim C5 — discovery collection predicate (corrected) -/

theorem min_guard_iff (yf : Option Nat) (yr : Nat) :
    (!(truthyN yf && decide (yr < yf.getD 0))) = true ↔
      ∀ y, yf = some y → y ≤ yr := by
  cases yf with
  | none => simp [truthyN]
  | some y =>
    simp only [truthyN, Option.getD_some, Bool.not_eq_true', Bool.and_eq_false_iff]
    constructor
    · rintro (h | h)
      · intro y' hy'
        obtain rfl := Option.some.injEq .. ▸ hy'
        simp only [bne_eq_false_iff_eq] at h
        omega
      · intro y' hy'
        obtain rfl := Option.some.injEq .. ▸ hy'
        rw [decide_eq_false_iff_not] at h
        omega
    · intro h
      have := h y rfl
      by_cases hy : y = 0
      · left; simp [hy]
      · right; rw [decide_eq_false_iff_not]; omega

theorem max_guard_iff (yt : Option Nat) (yr : Nat) :
    (!(truthyN yt && decide (yt.getD 0 < yr))) = true ↔
      ∀ m, yt = some m → m ≠ 0 → yr ≤ m := by
  cases yt with
  | none => simp [truthyN]
  | some m =>
    simp only [truthyN, Option.getD_some, Bool.not_eq_true', Bool.and_eq_false_iff]
    constructor
    · rintro (h | h)
      · intro m' hm' hne
        obtain rfl := Option.some.injEq .. ▸ hm'
        simp only [bne_eq_false_iff_eq] at h
        exact absurd h hne
      · intro m' hm' hne
        obtain rfl := Option.some.injEq .. ▸ hm'
        rw [decide_eq_false_iff_not] at h
        omega
    · intro h
      by_cases hm : m = 0
      · left; simp [hm]
      · right; rw [decide_eq_false_iff_not]; have := h m rfl hm; omega

/-- C5 (amended): an item is collected iff its scheme name — after
stripping surrounding whitespace — case-insensitively equals
"discovery projects", a configured non-zero minimum year bounds the
(missing-as-0) commencement year from below, a configured non-zero
maximum year bounds it from above (a configured 0 is treated as
unconfigured), and some funding-amount variant is positive; in
particular a Discovery Projects item whose only funding field is
`funding-current = 0` is not collected. -/
theorem claim_C5 :
    (∀ (year_from year_to : Option Nat) (it : ListItem),
      collects year_from year_to it = true ↔
        (lowerS (stripS (it.scheme_name.getD [])) = "discovery projects".data ∧
         (∀ y, year_from = some y → y ≤ it.funding_commencement_year.getD 0) ∧
         (∀ m, year_to = some m → m ≠ 0 → it.funding_commencement_year.getD 0 ≤ m) ∧
         is_funded_b it.funding = true)) ∧
    collects none none
      ⟨some ("Discovery Projects".data), none, ⟨none, some 0, none, none⟩⟩ = false := by
  constructor
  · intro yf yt it
    unfold collects
    simp only [Bool.and_eq_true]
    rw [min_guard_iff, max_guard_iff]
    unfold is_discovery_project_b
    rw [beq_iff_eq]
    tauto
  · decide

/-- C5 as literally stated is false on the code: (a) an item whose
scheme name carries surrounding whitespace is collected although the
name does not case-insensitively equal the target; (b) with a
configured maximum year of 0 an item whose year exceeds 0 is still
collected. -/
theorem claim_C5_counterexample :
    (collects none none
        ⟨some (" Discovery Projects".data), some 2020, ⟨some 1, none, none, none⟩⟩ = true ∧
     claimCollects none none
        ⟨some (" Discovery Projects".data), some 2020, ⟨some 1, none, none, none⟩⟩ = false) ∧
    (collects none (some 0)
        ⟨some ("Discovery Projects".data), some 2020, ⟨some 1, none, none, none⟩⟩ = true ∧
     claimCollects none (some 0)
        ⟨some ("Discovery Projects".data), some 2020, ⟨some 1, none, none, none⟩⟩ = false) := by
  decide

/-! ## Claim C6 — CSV round-trip (corrected) -/

/-- C6 (amended): for every record, each multi-valued CSV field
re-parsed by splitting on `"; "` reproduces its original ordered list,
provided the list is non-empty and none of its individual values
contains the substring `"; "`. -/
theorem claim_C6 (rec : GrantRecord) :
    (all_codes_list rec.field_of_research ≠ [] →
      (∀ x ∈ all_codes_list rec.field_of_research, containsSub sepJ x = false) →
      pysplit sepJ (toCsvRow rec).for_all_codes = all_codes_list rec.field_of_research) ∧
    (all_names_list rec.field_of_research ≠ [] →
      (∀ x ∈ all_names_list rec.field_of_research, containsSub sepJ x = false) →
      pysplit sepJ (toCsvRow rec).for_all_names = all_names_list rec.field_of_research) ∧
    (primary_codes_list rec.field_of_research ≠ [] →
      (∀ x ∈ primary_codes_list rec.field_of_research, containsSub sepJ x = false) →
      pysplit sepJ (toCsvRow rec).for_primary_codes = primary_codes_list rec.field_of_research) ∧
    (primary_names_list rec.field_of_research ≠ [] →
      (∀ x ∈ primary_names_list rec.field_of_research, containsSub sepJ x = false) →
      pysplit sepJ (toCsvRow rec).for_primary_names = primary_names_list rec.field_of_research) ∧
    (ci_names_list rec ≠ [] →
      (∀ x ∈ ci_names_list rec, containsSub sepJ x = false) →
      pysplit sepJ (toCsvRow rec).chief_investigators = ci_names_list rec) ∧
    (ci_orcids_list rec ≠ [] →
      (∀ x ∈ ci_orcids_list rec, containsSub sepJ x = false) →
      pysplit sepJ (toCsvRow rec).chief_investigators_orcids = ci_orcids_list rec) := by
  refine ⟨?_, ?_, ?_, ?_, ?_, ?_⟩ <;>
    exact fun h1 h2 =>
      pysplit_pyjoin _ h1 (fun x hx => mem_splitFirst_none_of_containsSub (h2 x hx))

/-- A record whose single chief investigator has the family name
`"Ann; Bob"`, so that the joined cell splits into two names. -/
def recC6sep : GrantRecord :=
  { code := "DP0002".data, scheme_name := none, funding_commencement_year := none,
    grant_status := none, funding_at_announcement := none, funding_current := none,
    administering_organisation := none, administering_organisation_announcement := none,
    summary := none, field_of_research := .absent, socio_economic_objective := none,
    national_interest_test_statement := none,
    investigators_current :=
      [⟨none, none, some ("Ann; Bob".data), none, some ("CI".data), none, none⟩],
    investigators_announcement := [] }

/-- A record with no chief investigators at all. -/
def recC6empty : GrantRecord :=
  { code := "DP0003".data, scheme_name := none, funding_commencement_year := none,
    grant_status := none, funding_at_announcement := none, funding_current := none,
    administering_organisation := none, administering_organisation_announcement := none,
    summary := none, field_of_research := .absent, socio_economic_objective := none,
    national_interest_test_statement := none,
    investigators_current := [], investigators_announcement := [] }

/-- C6 as literally stated is false on the code: a chief-investigator
full name containing `"; "` splits into two entries (a non-empty
list), and an empty list re-parses as `[""]` rather than `[]`. -/
theorem claim_C6_counterexample :
    (ci_names_list recC6sep ≠ [] ∧
     pysplit sepJ (toCsvRow recC6sep).chief_investigators ≠ ci_names_list recC6sep) ∧
    (pysplit sepJ (toCsvRow recC6empty).chief_investigators ≠ ci_names_list recC6empty) := by
  decide

/-- A record whose six multi-valued fields are all non-empty and free
of the separator. -/
def recC6good : GrantRecord :=
  { code := "DP0004".data, scheme_name := some ("Discovery Projects".data),
    funding_commencement_year := some 2021, grant_status := some ("Closed".data),
    funding_at_announcement := some 350000, funding_current := some 372000,
    administering_organisation := some ("UNSW".data),
    administering_organisation_announcement := none, summary := none,
    field_of_research := .items
      [⟨some ("0801".data), some ("Artificial Intelligence and Image Processing".data), true⟩,
       ⟨some ("4602".data), some ("Artificial intelligence".data), false⟩],
    socio_economic_objective := none, national_interest_test_statement := none,
    investigators_current :=
      [⟨some ("Prof".data), some ("Ann".data), some ("Ada".data), none,
        some ("CI".data), some false, some ("0000-0001".data)⟩,
       ⟨none, some ("Bob".data), some ("Binn".data), some ("Chief Investigator".data),
        none, some false, some ("0000-0002".data)⟩],
    investigators_announcement := [] }

theorem claim_C6_witness :
    pysplit sepJ (toCsvRow recC6good).for_all_codes = all_codes_list recC6good.field_of_research ∧
    pysplit sepJ (toCsvRow recC6good).for_all_names = all_names_list recC6good.field_of_research ∧
    pysplit sepJ (toCsvRow recC6good).for_primary_codes
      = primary_codes_list recC6good.field_of_research ∧
    pysplit sepJ (toCsvRow recC6good).for_primary_names
      = primary_names_list recC6good.field_of_research ∧
    pysplit sepJ (toCsvRow recC6good).chief_investigators = ci_names_list recC6good ∧
    pysplit sepJ (toCsvRow recC6good).chief_investigators_orcids = ci_orcids_list recC6good :=
  ⟨(claim_C6 recC6good).1 (by decide) (by decide),
   (claim_C6 recC6good).2.1 (by decide) (by decide),
   (claim_C6 recC6good).2.2.1 (by decide) (by decide),
   (claim_C6 recC6good).2.2.2.1 (by decide) (by decide),
   (claim_C6 recC6good).2.2.2.2.1 (by decide) (by decide),
   (claim_C6 recC6good).2.2.2.2.2 (by decide) (by decide)⟩

/-! ## Claim C10 — ORCID column pairing -/

theorem countP_lt_length_of_false {α : Type} {p : α → Bool} :
    ∀ {l : List α} {x : α}, x ∈ l → p x = false → l.countP p < l.length := by
  intro l
  induction l with
  | nil => intro x hx; exact absurd hx (List.not_mem_nil x)
  | cons a t ih =>
    intro x hx hpx
    rw [List.countP_cons]
    rcases List.mem_cons.mp hx with h | h
    · subst h
      rw [hpx]
      simp only [Bool.false_eq_true, if_false]
      have := List.countP_le_length p (l := t)
      simp only [List.length_cons]
      omega
    · have := ih h hpx
      simp only [List.length_cons]
      split <;> omega

/-- A record with two chief investigators: Ann has no ORCID, Bob has
one.  The exported name column has two entries but the ORCID column
only one, so index pairing attributes Bob's ORCID to Ann. -/
def recC10 : GrantRecord :=
  { code := "DP0005".data, scheme_name := none, funding_commencement_year := none,
    grant_status := none, funding_at_announcement := none, funding_current := none,
    administering_organisation := none, administering_organisation_announcement := none,
    summary := none, field_of_research := .absent, socio_economic_objective := none,
    national_interest_test_statement := none,
    investigators_current :=
      [⟨none, some ("Ann".data), some ("Ada".data), none, some ("CI".data), none, none⟩,
       ⟨none, some ("Bob".data), some ("Binn".data), none, some ("CI".data), none,
        some ("0000-0001".data)⟩],
    investigators_announcement := [] }

/-- C10: the ORCID column joins only the ORCIDs that are present while
the name column joins every chief-investigator name, so a missing
ORCID makes the ORCID list strictly shorter; pairing the two lists by
index, as `extract_cis.py` does, then attributes an ORCID to the wrong
investigator — concretely, Bob's ORCID lands on Ann. -/
theorem claim_C10 :
    (∀ rec : GrantRecord,
      (ci_names_list rec).length = rec.chief_investigators.length ∧
      (ci_orcids_list rec).length =
        rec.chief_investigators.countP (fun ci => (truthyS ci.orcid).isSome) ∧
      ((∃ ci ∈ rec.chief_investigators, truthyS ci.orcid = none) →
        (ci_orcids_list rec).length < (ci_names_list rec).length)) ∧
    (extract_pairs (toCsvRow recC10).chief_investigators
        (toCsvRow recC10).chief_investigators_orcids =
      [(("Ann Ada".data), some ("0000-0001".data)), (("Bob Binn".data), none)] ∧
     recC10.chief_investigators.map (fun ci => ci.orcid) =
      [none, some ("0000-0001".data)]) := by
  constructor
  · intro rec
    have hlen : (ci_names_list rec).length = rec.chief_investigators.length :=
      List.length_map _ _
    have horc : (ci_orcids_list rec).length =
        rec.chief_investigators.countP (fun ci => (truthyS ci.orcid).isSome) := by
      unfold ci_orcids_list
      rw [List.length_filterMap_eq_countP]
      congr 1
      funext ci
      rw [Option.isSome_map']
    refine ⟨hlen, horc, ?_⟩
    rintro ⟨ci, hci, hnone⟩
    rw [hlen, horc]
    exact countP_lt_length_of_false hci (by rw [hnone]; rfl)
  · constructor <;> decide

theorem claim_C10_witness :
    (ci_orcids_list recC10).length < (ci_names_list recC10).length :=
  ((claim_C10.1 recC10).2.2)
    ⟨⟨none, some ("Ann".data), some ("Ada".data), none, some ("CI".data), none, none⟩,
     by decide, by decide⟩

/-! ## Claims C1, C3, C4, C8, C9 — ranking pipeline -/

theorem mem_explodeOpt_some {l : List Str} {a : Str} :
    some a ∈ explodeOpt l ↔ a ∈ l := by
  cases l with
  | nil => simp [explodeOpt]
  | cons x xs => simp [explodeOpt]

theorem overallPairs_mem {df : List Row} {i cd : Str} :
    (i, cd) ∈ overallPairs df ↔
      ∃ r ∈ df, i ∈ splitList r.chief_investigators ∧ cd = r.code := by
  unfold overallPairs
  simp only [List.mem_flatMap, List.mem_filterMap, Option.map_eq_some']
  constructor
  · rintro ⟨r, hr, oc, hoc, c, hc, heq⟩
    subst hc
    obtain ⟨h1, h2⟩ := Prod.mk.injEq .. ▸ heq
    subst h1
    exact ⟨r, hr, mem_explodeOpt_some.mp hoc, h2.symm⟩
  · rintro ⟨r, hr, hmem, hcd⟩
    exact ⟨r, hr, some i, mem_explodeOpt_some.mpr hmem, i, rfl, by rw [hcd]⟩

theorem pairs_count_eq_distinct (rows : List FRow) (i : Str) :
    (((rows.map (fun r => (r.ci_name, r.code))).filter (fun q => q.1 == i)).map
        Prod.snd).dedup.length = distinctCodesAmong rows i := by
  unfold distinctCodesAmong
  rw [List.card_toFinset]
  apply dedup_length_congr
  intro c
  rw [mem_filter_map_pairs]
  simp only [List.mem_map, List.mem_filter, beq_iff_eq, Prod.mk.injEq]
  constructor
  · rintro ⟨r, hr, h1, h2⟩
    exact ⟨r, ⟨hr, h1⟩, h2⟩
  · rintro ⟨r, ⟨hr, h1⟩, h2⟩
    exact ⟨r, hr, h1, h2⟩

theorem overall_count_eq (df : List Row) (i : Str) :
    (((overallPairs df).filter (fun q => q.1 == i)).map Prod.snd).dedup.length =
      overallDistinct df i := by
  unfold overallDistinct
  rw [List.card_toFinset]
  apply dedup_length_congr
  intro c
  rw [mem_filter_map_pairs, overallPairs_mem]
  simp only [List.mem_map, List.mem_filter, List.elem_iff]
  constructor
  · rintro ⟨r, hr, hmem, hcd⟩
    exact ⟨r, ⟨hr, hmem⟩, hcd.symm⟩
  · rintro ⟨r, ⟨hr, hmem⟩, hcd⟩
    exact ⟨r, hr, hmem, hcd.symm⟩

/-- The scenario table of the specification: project `"A123"` with
investigators Smith and Doe and classifications 0801 and 4602, and
project `"B456"` with investigator Smith and classification 0801. -/
def dfScenario : List Row :=
  [⟨"A123".data, some ("Smith, J; Doe, R".data), some ("0801; 4602".data), none⟩,
   ⟨"B456".data, some ("Smith, J".data), some ("0801".data), none⟩]

/-- C1: under any non-empty classification filter, the ranking is not
the overall one and every reported count equals the number of distinct
project codes among that investigator's filtered long-form rows (the
`(investigator, project-code)` deduplication makes double counting
impossible); on the scenario table, `rank(["0801"], [], 10)` yields
Smith with count 2 and Doe with count 1. -/
theorem claim_C1 :
    (∀ (df : List Row) (sel sel2 : List Str) (k : Nat) (res : RankResult),
      ¬(sel = [] ∧ sel2 = []) →
      get_ranked_cis (some df) sel sel2 k = .ok res →
      res.is_overall = false ∧
      ∀ p ∈ res.ranked_cis, p.2 = distinctCodesAmong (filteredRows df sel sel2) p.1) ∧
    get_ranked_cis (some dfScenario) [("0801".data)] [] 10 =
      .ok ⟨[(("Smith, J".data), 2), (("Doe, R".data), 1)], false⟩ := by
  constructor
  · intro df sel sel2 k res hsel hres
    simp only [get_ranked_cis] at hres
    rw [if_neg (by
      intro hc
      rw [Bool.and_eq_true, List.isEmpty_iff, List.isEmpty_iff] at hc
      exact hsel hc)] at hres
    obtain hres := Except.ok.injEq .. ▸ hres
    subst hres
    refine ⟨rfl, ?_⟩
    rintro ⟨i, c⟩ hp
    have hmem : (i, c) ∈ sortDesc (groupbyNunique
        (((filteredRows df sel sel2).map (fun r => (r.ci_name, r.code))).dedup)) :=
      take_sorted_mem hp
    rw [(sortDesc_perm _).mem_iff, groupbyNunique_mem] at hmem
    show c = distinctCodesAmong (filteredRows df sel sel2) i
    rw [hmem.2]
    rw [dedup_pairs_count_eq, pairs_count_eq_distinct]
  · decide

/-- C4: with both selectors empty the ranking is computed from the
original table — only the investigator cell is exploded — and it is
tagged `is_overall`; each entry counts the investigator's distinct
project codes over the entire unfiltered dataset, the list is sorted
by descending count, and it is the `top_k`-prefix of a full descending
ranking of all investigators. -/
theorem claim_C4 (df : List Row) (k : Nat) (res : RankResult) :
    get_ranked_cis (some df) [] [] k = .ok res →
    res.is_overall = true ∧
    List.Sorted countGE res.ranked_cis ∧
    (∀ p ∈ res.ranked_cis, p.2 = overallDistinct df p.1) ∧
    (∃ full : List (Str × Nat), full.Perm (groupbyNunique (overallPairs df)) ∧
      List.Sorted countGE full ∧ res.ranked_cis = full.take k) ∧
    (∀ i c, (i, c) ∈ groupbyNunique (overallPairs df) ↔
      ((∃ r ∈ df, i ∈ splitList r.chief_investigators) ∧ c = overallDistinct df i)) := by
  intro hres
  simp only [get_ranked_cis, List.isEmpty_nil, Bool.and_self] at hres
  rw [if_pos trivial] at hres
  obtain hres := Except.ok.injEq .. ▸ hres
  subst hres
  refine ⟨rfl, ?_, ?_, ?_, ?_⟩
  · exact List.Pairwise.sublist (List.take_sublist _ _) (sortDesc_sorted _)
  · rintro ⟨i, c⟩ hp
    have hmem : (i, c) ∈ sortDesc (groupbyNunique (overallPairs df)) := take_sorted_mem hp
    rw [(sortDesc_perm _).mem_iff, groupbyNunique_mem] at hmem
    show c = overallDistinct df i
    rw [hmem.2, overall_count_eq]
  · exact ⟨sortDesc (groupbyNunique (overallPairs df)), sortDesc_perm _, sortDesc_sorted _, rfl⟩
  · intro i c
    rw [groupbyNunique_mem, overall_count_eq]
    constructor
    · rintro ⟨hk, hc⟩
      refine ⟨?_, hc⟩
      rw [List.mem_map] at hk
      obtain ⟨⟨i', cd⟩, hmem, hfst⟩ := hk
      subst hfst
      obtain ⟨r, hr, hmem, -⟩ := overallPairs_mem.mp hmem
      exact ⟨r, hr, hmem⟩
    · rintro ⟨⟨r, hr, hmem⟩, hc⟩
      refine ⟨?_, hc⟩
      rw [List.mem_map]
      exact ⟨(i, r.code), overallPairs_mem.mpr ⟨r, hr, hmem, rfl⟩, rfl⟩

theorem claim_C1_witness :
    (⟨[(("Smith, J".data : Str), 2), (("Doe, R".data), 1)], false⟩ : RankResult).is_overall
        = false ∧
    ∀ p ∈ (⟨[(("Smith, J".data : Str), 2), (("Doe, R".data), 1)], false⟩ :
        RankResult).ranked_cis,
      p.2 = distinctCodesAmong (filteredRows dfScenario [("0801".data)] []) p.1 :=
  claim_C1.1 dfScenario [("0801".data)] [] 10
    ⟨[(("Smith, J".data), 2), (("Doe, R".data), 1)], false⟩ (by decide) (by decide)

theorem claim_C4_witness :
    (⟨[(("Smith, J".data : Str), 2), (("Doe, R".data), 1)], true⟩ : RankResult).is_overall
        = true ∧
    List.Sorted countGE (⟨[(("Smith, J".data : Str), 2), (("Doe, R".data), 1)], true⟩ :
        RankResult).ranked_cis ∧
    (∀ p ∈ (⟨[(("Smith, J".data : Str), 2), (("Doe, R".data), 1)], true⟩ :
        RankResult).ranked_cis,
      p.2 = overallDistinct dfScenario p.1) ∧
    (∃ full : List (Str × Nat), full.Perm (groupbyNunique (overallPairs dfScenario)) ∧
      List.Sorted countGE full ∧
      (⟨[(("Smith, J".data : Str), 2), (("Doe, R".data), 1)], true⟩ :
        RankResult).ranked_cis = full.take 2) ∧
    (∀ i c, (i, c) ∈ groupbyNunique (overallPairs dfScenario) ↔
      ((∃ r ∈ dfScenario, i ∈ splitList r.chief_investigators) ∧
        c = overallDistinct dfScenario i)) :=
  claim_C4 dfScenario 2 ⟨[(("Smith, J".data), 2), (("Doe, R".data), 1)], true⟩ (by decide)

/-- C3: when both selector lists are non-empty they combine as AND —
a long-form row survives the shared filter pipeline iff its
classification code is a member of `selected_codes` and starts with at
least one of `selected_2digit_codes`; consequently the detail lookup
returns exactly the codes of rows passing both filters for the named
investigator. -/
theorem claim_C3 (df : List Row) (sel sel2 : List Str) (h1 : sel ≠ []) (h2 : sel2 ≠ []) :
    (∀ r : FRow, r ∈ filteredRows df sel sel2 ↔
      (r ∈ explodedRows df ∧ r.for_code ∈ sel ∧
        ∃ p ∈ sel2, p.isPrefixOf r.for_code = true)) ∧
    (∀ (name : Str) (codes : List Str),
      get_ci_detail_codes (some df) name sel sel2 = .ok codes →
      ∀ c, c ∈ codes ↔ ∃ r ∈ explodedRows df,
        r.ci_name = name ∧ r.code = c ∧ r.for_code ∈ sel ∧
        ∃ p ∈ sel2, p.isPrefixOf r.for_code = true) := by
  have hb1 : (!sel.isEmpty) = true := by
    cases sel with
    | nil => exact absurd rfl h1
    | cons a t => rfl
  have hb2 : (!sel2.isEmpty) = true := by
    cases sel2 with
    | nil => exact absurd rfl h2
    | cons a t => rfl
  have hunf : filteredRows df sel sel2 =
      ((explodedRows df).filter (fun r => sel.contains r.for_code)).filter
        (fun r => sel2.any fun p => p.isPrefixOf r.for_code) := by
    cases sel with
    | nil => exact absurd rfl h1
    | cons a t =>
      cases sel2 with
      | nil => exact absurd rfl h2
      | cons b u => rfl
  have hpart1 : ∀ r : FRow, r ∈ filteredRows df sel sel2 ↔
      (r ∈ explodedRows df ∧ r.for_code ∈ sel ∧
        ∃ p ∈ sel2, p.isPrefixOf r.for_code = true) := by
    intro r
    rw [hunf]
    simp only [List.mem_filter, List.any_eq_true, List.elem_iff]
    tauto
  refine ⟨hpart1, ?_⟩
  intro name codes hcodes c
  simp only [get_ci_detail_codes] at hcodes
  rw [if_neg (by
    intro hc
    rw [Bool.and_eq_true] at hc
    rw [List.isEmpty_iff] at hc
    exact h1 hc.1)] at hcodes
  obtain hcodes := Except.ok.injEq .. ▸ hcodes
  subst hcodes
  rw [mem_pyunique]
  simp only [List.mem_map, List.mem_filter, beq_iff_eq]
  constructor
  · rintro ⟨r, ⟨hr, hname⟩, hcode⟩
    obtain ⟨hexp, hsel, hpre⟩ := (hpart1 r).mp hr
    exact ⟨r, hexp, hname, hcode, hsel, hpre⟩
  · rintro ⟨r, hexp, hname, hcode, hsel, hpre⟩
    exact ⟨r, ⟨(hpart1 r).mpr ⟨hexp, hsel, hpre⟩, hname⟩, hcode⟩

theorem claim_C3_witness :
    (∀ r : FRow, r ∈ filteredRows dfScenario [("0801".data)] [("08".data)] ↔
      (r ∈ explodedRows dfScenario ∧ r.for_code ∈ [("0801".data)] ∧
        ∃ p ∈ [("08".data)], p.isPrefixOf r.for_code = true)) ∧
    (∀ (name : Str) (codes : List Str),
      get_ci_detail_codes (some dfScenario) name [("0801".data)] [("08".data)] = .ok codes →
      ∀ c, c ∈ codes ↔ ∃ r ∈ explodedRows dfScenario,
        r.ci_name = name ∧ r.code = c ∧ r.for_code ∈ [("0801".data)] ∧
        ∃ p ∈ [("08".data)], p.isPrefixOf r.for_code = true) :=
  claim_C3 dfScenario [("0801".data)] [("08".data)] (by decide) (by decide)

/-- C8: a record whose chief-investigator cell splits to the empty
list contributes no row to the long-form explosion and no row to the
overall explosion, and deleting it changes no ranking, filtered or
overall. -/
theorem claim_C8 (rec : Row) (h : splitList rec.chief_investigators = []) :
    (∀ rest, explodedRows (rec :: rest) = explodedRows rest) ∧
    explodedRows [rec] = [] ∧
    (∀ rest, overallPairs (rec :: rest) = overallPairs rest) ∧
    (∀ rest sel sel2 k,
      get_ranked_cis (some (rec :: rest)) sel sel2 k =
        get_ranked_cis (some rest) sel sel2 k) := by
  have hexp : ∀ rest, explodedRows (rec :: rest) = explodedRows rest := by
    intro rest
    unfold explodedRows
    have hA : explodeAll (rec :: rest) =
        ((explodeOpt (splitList rec.for_all_codes)).map
          (fun fc => (⟨rec.code, none, fc⟩ : XRow))) ++ explodeAll rest := by
      simp [explodeAll, explodeOpt, h]
    rw [hA, List.filter_append]
    have hz : ((explodeOpt (splitList rec.for_all_codes)).map
        (fun fc => (⟨rec.code, none, fc⟩ : XRow))).filter
          (fun r => notBlank r.ci_name) = [] := by
      rw [List.filter_map]
      have hfun : ((fun r : XRow => notBlank r.ci_name) ∘
          (fun fc => (⟨rec.code, none, fc⟩ : XRow))) = fun _ => false := by
        funext fc
        rfl
      rw [hfun]
      simp
    rw [hz, List.nil_append]
  have hop : ∀ rest, overallPairs (rec :: rest) = overallPairs rest := by
    intro rest
    unfold overallPairs
    rw [List.flatMap_cons, h]
    simp [explodeOpt]
  refine ⟨hexp, ?_, hop, ?_⟩
  · have h0 := hexp []
    rw [h0]
    rfl
  · intro rest sel sel2 k
    have hfr : filteredRows (rec :: rest) sel sel2 = filteredRows rest sel sel2 := by
      unfold filteredRows
      rw [hexp rest]
    simp only [get_ranked_cis]
    rw [hfr, hop rest]

/-- A record whose chief-investigator cell is a lone semicolon with
spaces: it splits to the empty list. -/
def recC8 : Row := ⟨"Z999".data, some (" ; ".data), some ("0801".data), none⟩

theorem claim_C8_witness :
    explodedRows [recC8] = [] ∧
    get_ranked_cis (some (recC8 :: dfScenario)) [] [] 5 =
      get_ranked_cis (some dfScenario) [] [] 5 :=
  ⟨(claim_C8 recC8 (by decide)).2.1,
   (claim_C8 recC8 (by decide)).2.2.2 dfScenario [] [] 5⟩

/-- C9: a filter selection matching no long-form rows yields a
successful empty, non-overall ranking; the error outcome is reserved
for the not-loaded dataset. -/
theorem claim_C9 (sel sel2 : List Str) (k : Nat) :
    get_ranked_cis none sel sel2 k = .error ("Data not loaded".data) ∧
    (∀ df : List Row, ¬(sel = [] ∧ sel2 = []) → filteredRows df sel sel2 = [] →
      get_ranked_cis (some df) sel sel2 k = .ok ⟨[], false⟩) := by
  refine ⟨rfl, ?_⟩
  intro df hsel hempty
  simp only [get_ranked_cis]
  rw [if_neg (by
    intro hc
    rw [Bool.and_eq_true, List.isEmpty_iff, List.isEmpty_iff] at hc
    exact hsel hc)]
  rw [hempty]
  simp [groupbyNunique, sortDesc]

theorem claim_C9_witness :
    get_ranked_cis (some dfScenario) [("9999".data)] [] 10 = .ok ⟨[], false⟩ :=
  (claim_C9 [("9999".data)] [] 10).2 dfScenario (by decide) (by decide)

/-! ## Claim C7 — code labels (corrected) -/

theorem lookup_mem_values : ∀ {m : List (Str × Str)} {k v : Str},
    m.lookup k = some v → v ∈ m.map Prod.snd := by
  intro m
  induction m with
  | nil => intro k v h; simp [List.lookup] at h
  | cons p t ih =>
    intro k v h
    obtain ⟨a, b⟩ := p
    rw [List.lookup_cons] at h
    by_cases hk : (k == a) = true
    · rw [hk] at h
      simp only at h
      obtain rfl := Option.some.injEq .. ▸ h
      exact List.mem_cons_self _ _
    · rw [Bool.not_eq_true] at hk
      rw [hk] at h
      simp only at h
      exact List.mem_cons_of_mem _ (ih h)

theorem setdefault_values {m : List (Str × Str)} {k v v' : Str}
    (h : v' ∈ (setdefault m k v).map Prod.snd) : v' ∈ m.map Prod.snd ∨ v' = v := by
  unfold setdefault at h
  cases hv : m.lookup k with
  | some w => rw [hv] at h; exact Or.inl h
  | none =>
    rw [hv] at h
    rw [List.map_append, List.mem_append] at h
    rcases h with h | h
    · exact Or.inl h
    · right
      simpa using h

theorem inner_fold_values : ∀ (ps : List (Str × Str)) (m : List (Str × Str)) {v' : Str},
    v' ∈ ((ps.foldl (fun m p => setdefault m p.1 p.2) m).map Prod.snd) →
    v' ∈ m.map Prod.snd ∨ ∃ p ∈ ps, v' = p.2 := by
  intro ps
  induction ps with
  | nil => intro m v' h; exact Or.inl h
  | cons q t ih =>
    intro m v' h
    rw [List.foldl_cons] at h
    rcases ih _ h with h | ⟨p, hp, hv⟩
    · rcases setdefault_values h with h | h
      · exact Or.inl h
      · exact Or.inr ⟨q, List.mem_cons_self _ _, h⟩
    · exact Or.inr ⟨p, List.mem_cons_of_mem _ hp, hv⟩

theorem splitStr_not_empty {s : Str} {x : Str} (h : x ∈ splitStr s) : x ≠ [] := by
  unfold splitStr at h
  rw [List.mem_filter] at h
  intro hx
  rw [hx] at h
  simp at h

theorem buildForMap_values (df : List Row) :
    ∀ v ∈ (buildForMap df).map Prod.snd, v ≠ [] := by
  unfold buildForMap
  suffices hgen : ∀ (df : List Row) (m : List (Str × Str)),
      (∀ v ∈ m.map Prod.snd, v ≠ []) →
      ∀ v ∈ ((df.foldl (fun m r =>
        match r.for_all_codes, r.for_all_names with
        | some cs, some ns => ((splitStr cs).zip (splitStr ns)).foldl
            (fun m p => setdefault m p.1 p.2) m
        | _, _ => m) m).map Prod.snd), v ≠ [] by
    exact hgen df [] (by simp)
  intro df'
  induction df' with
  | nil => intro m hm v hv; exact hm v hv
  | cons r t ih =>
    intro m hm v hv
    rw [List.foldl_cons] at hv
    refine ih _ ?_ v hv
    intro w hw
    cases hcs : r.for_all_codes with
    | none => rw [hcs] at hw; exact hm w hw
    | some cs =>
      cases hns : r.for_all_names with
      | none => rw [hcs, hns] at hw; exact hm w hw
      | some ns =>
        rw [hcs, hns] at hw
        simp only at hw
        rcases inner_fold_values _ _ hw with h | ⟨p, hp, hveq⟩
        · exact hm w h
        · obtain ⟨-, hsnd⟩ := List.of_mem_zip hp
          rw [hveq]
          exact splitStr_not_empty hsnd

/-- C7 (amended): a code with a known (necessarily non-empty) name is
labelled `"{code} — {name}"` everywhere; with no known name, the
Flask app's `label_for` yields the bare code but `simple_build`'s
`get_label` yields `"{code} — {code}"`, repeating the code after the
separator.  The name maps the Flask app builds never store an empty
name. -/
theorem claim_C7 :
    (∀ (m : List (Str × Str)) (c n : Str),
      (∀ v ∈ m.map Prod.snd, v ≠ []) → m.lookup c = some n →
      label_for m c = c ++ " — ".data ++ n) ∧
    (∀ (m : List (Str × Str)) (c : Str), m.lookup c = none → label_for m c = c) ∧
    (∀ df : List Row, ∀ v ∈ (buildForMap df).map Prod.snd, v ≠ []) ∧
    (∀ c n : Str, for_labels.lookup c = some n → get_label c = c ++ " — ".data ++ n) ∧
    (∀ c : Str, for_labels.lookup c = none → get_label c = c ++ " — ".data ++ c) := by
  refine ⟨?_, ?_, buildForMap_values, ?_, ?_⟩
  · intro m c n hvals hlk
    unfold label_for
    rw [hlk]
    simp only
    rw [if_neg (by
      intro hfalse
      rw [List.isEmpty_iff] at hfalse
      exact hvals n (lookup_mem_values hlk) hfalse)]
  · intro m c hlk
    unfold label_for
    rw [hlk]
  · intro c n hlk
    unfold get_label
    rw [hlk]
  · intro c hlk
    unfold get_label
    rw [hlk]

/-- A table offering the 6-digit code `"080101"`, which the
`simple_build` label table does not know. -/
def dfC7 : List Row := [⟨"X1".data, none, some ("080101".data), none⟩]

/-- C7 as literally stated is false on the code: `simple_build` offers
`"080101"` with the label `"080101 — 080101"` even though no name is
known for it, instead of the bare code. -/
theorem claim_C7_counterexample :
    ((("080101".data : Str), get_label ("080101".data)) ∈ simple_build_specific dfC7) ∧
    for_labels.lookup ("080101".data) = none ∧
    get_label ("080101".data) = ("080101 — 080101".data) ∧
    get_label ("080101".data) ≠ ("080101".data) := by
  decide

theorem claim_C7_witness :
    label_for (buildForMap dfScenario) ("9999".data) = ("9999".data) ∧
    get_label ("0801".data) =
      ("0801".data) ++ " — ".data ++ ("Artificial Intelligence and Image Processing".data) :=
  ⟨claim_C7.2.1 (buildForMap dfScenario) ("9999".data) (by decide),
   claim_C7.2.2.2.1 ("0801".data) ("Artificial Intelligence and Image Processing".data)
     (by decide)⟩
